import Mathlib

/-!
Shallow embedding of the expense-tracker form logic from
src/components/ExpenseForm/ExpenseForm.tsx: the validator
validateExpenseForm, the field-edit handler handleInputChange and the
submit handler handleSubmit, together with the state they act on.

JavaScript runtime primitives used by that code (String.trim, parseFloat,
string truthiness) are modelled here over List Char and rational numbers:
parseFloat reads optional leading whitespace, an optional sign, then either
the literal Infinity or a decimal literal (digits, an optional decimal
point with more digits, an optional exponent part), taking the longest
valid leading segment; it yields NaN when no such segment exists.

A finite parse result is not the exact decimal value: as ECMAScript
prescribes, the exact value is rounded to the nearest IEEE-754 binary64
number, ties to even. Every finite binary64 number is a rational, so the
result is carried as the rational that the rounded double denotes
exactly; values beyond the binary64 range round to an infinity and values
below half the least subnormal round to zero. Hence, for example, 1e-324
parses to zero (and fails the positive-amount check) and 1e309 parses to
positive infinity, as in JavaScript.
-/

namespace ExpenseTracker

/-- Whitespace characters accepted by JavaScript trimming and number
parsing (ECMAScript WhiteSpace and LineTerminator sets). -/
def jsWhitespaceChars : List Char :=
  [' ', '\t', '\n', '\r', '\x0b', '\x0c', '\u00A0', '\u1680',
   '\u2000', '\u2001', '\u2002', '\u2003', '\u2004', '\u2005',
   '\u2006', '\u2007', '\u2008', '\u2009', '\u200A', '\u2028',
   '\u2029', '\u202F', '\u205F', '\u3000', '\uFEFF']

/-- Whether a character counts as JavaScript whitespace. -/
def isJsWhitespace (c : Char) : Bool :=
  jsWhitespaceChars.contains c

/-- Model of String.trim on character lists: drop whitespace from both
ends. -/
def jsTrimChars (cs : List Char) : List Char :=
  ((cs.dropWhile isJsWhitespace).reverse.dropWhile isJsWhitespace).reverse

/-- Model of JavaScript String.prototype.trim. -/
def jsTrim (s : String) : String :=
  String.mk (jsTrimChars s.data)

/-- Result of JavaScript number parsing: NaN, a finite value (modelled
exactly as a rational), or a signed infinity. -/
inductive JsNum where
  | nan : JsNum
  | finite (q : ℚ) : JsNum
  | inf (pos : Bool) : JsNum
deriving DecidableEq, Repr

/-- Numeric value of a digit-character list read in base ten. -/
def digitsToNat (ds : List Char) : Nat :=
  ds.foldl (fun a c => a * 10 + (c.toNat - 48)) 0

/-- Floor of the base-two logarithm, by fuelled halving; the first
argument is the fuel, which suffices whenever it is at least the
logarithm. -/
def log2Fuel : Nat → Nat → Nat
  | 0, _ => 0
  | f + 1, n => if 2 ≤ n then log2Fuel f (n / 2) + 1 else 0

/-- Floor of the base-two logarithm of a positive natural number; the
number itself always suffices as fuel. -/
def natLog2 (n : Nat) : Nat :=
  log2Fuel n n

/-- Whether 2 ^ k is at most the positive rational n / d. -/
def pow2Le (k : Int) (n d : Nat) : Bool :=
  if 0 ≤ k then d * 2 ^ k.toNat ≤ n else d ≤ n * 2 ^ (-k).toNat

/-- Nearest integer to n / d, ties going to the even integer. -/
def roundNearestEven (n d : Nat) : Nat :=
  let q := n / d
  let r := n % d
  if 2 * r < d then q
  else if d < 2 * r then q + 1
  else if q % 2 = 0 then q else q + 1

/-- Round the rational with magnitude n / d (d positive) and the given
sign to the nearest IEEE-754 binary64 number, ties to even, as the
ECMAScript number conversion does: the result is the exact rational value
of that double, an infinity when the rounded magnitude reaches 2 ^ 1024,
and zero when the magnitude rounds to no subnormal. The binary64 grid
step for a magnitude in [2 ^ e, 2 ^ (e + 1)) is 2 ^ (e - 52), floored at
the subnormal step 2 ^ (-1074). -/
def roundB64 (neg : Bool) (n d : Nat) : JsNum :=
  if n = 0 then JsNum.finite 0
  else
    let e0 : Int := (natLog2 n : Int) - (natLog2 d : Int)
    let e : Int := if pow2Le e0 n d then e0 else e0 - 1
    let u : Int := max (e - 52) (-1074)
    let m : Nat :=
      if 0 ≤ u then roundNearestEven n (d * 2 ^ u.toNat)
      else roundNearestEven (n * 2 ^ (-u).toNat) d
    if 0 ≤ u ∧ 2 ^ 1024 ≤ m * 2 ^ u.toNat then JsNum.inf (!neg)
    else
      let mag : ℚ :=
        if 0 ≤ u then mkRat (m * 2 ^ u.toNat) 1
        else mkRat m (2 ^ (-u).toNat)
      JsNum.finite (if neg then -mag else mag)

/-- Consume an optional leading sign; return (isNegative, rest). -/
def splitSign (cs : List Char) : Bool × List Char :=
  if cs.head? = some '+' then (false, cs.tail)
  else if cs.head? = some '-' then (true, cs.tail)
  else (false, cs)

/-- The characters of the literal Infinity recognised by parseFloat. -/
def infinityChars : List Char :=
  ['I', 'n', 'f', 'i', 'n', 'i', 't', 'y']

/-- Read an exponent part (e or E, optional sign, at least one digit) at
the given position; a malformed exponent part contributes nothing, as in
the longest-valid-leading-segment rule of parseFloat. -/
def readExponent (cs : List Char) : Int :=
  if cs.head? = some 'e' ∨ cs.head? = some 'E' then
    let (eneg, rest) := splitSign cs.tail
    let eds := rest.takeWhile Char.isDigit
    if eds = [] then 0
    else if eneg then -(digitsToNat eds : Int) else (digitsToNat eds : Int)
  else 0

/-- Model of JavaScript parseFloat on a character list: longest valid
leading numeric segment, NaN when there is none, and the exact decimal
value rounded to binary64 by roundB64 otherwise. -/
def parseFloatChars (cs : List Char) : JsNum :=
  let cs1 := cs.dropWhile isJsWhitespace
  let (neg, cs2) := splitSign cs1
  if cs2.take 8 = infinityChars then JsNum.inf (!neg)
  else
    let intDigits := cs2.takeWhile Char.isDigit
    let cs3 := cs2.dropWhile Char.isDigit
    let fracDigits :=
      if cs3.head? = some '.' then cs3.tail.takeWhile Char.isDigit else []
    let afterFrac :=
      if cs3.head? = some '.' then cs3.tail.dropWhile Char.isDigit else cs3
    if intDigits = [] ∧ fracDigits = [] then JsNum.nan
    else
      let e := readExponent afterFrac
      let fl := fracDigits.length
      let mantNum : Nat :=
        digitsToNat intDigits * 10 ^ fl + digitsToNat fracDigits
      if 0 ≤ e then roundB64 neg (mantNum * 10 ^ e.toNat) (10 ^ fl)
      else roundB64 neg mantNum (10 ^ fl * 10 ^ (-e).toNat)

/-- Model of JavaScript parseFloat on strings. -/
def parseFloat (s : String) : JsNum :=
  parseFloatChars s.data

/-- The isNaN test of the source code on a parsed amount. -/
def JsNum.isNaN : JsNum → Bool
  | JsNum.nan => true
  | _ => false

/-- The (amount <= 0) test of the source code on a parsed amount; NaN
compares false, a negative infinity compares true. -/
def JsNum.leZero : JsNum → Bool
  | JsNum.nan => false
  | JsNum.finite q => decide (q ≤ 0)
  | JsNum.inf pos => !pos

/-- The draft record ExpenseFormData of the source. All four fields are
strings at runtime: the category annotation ExpenseCategory is erased, and
handleInputChange writes the raw event value into whichever field the
event names. -/
structure ExpenseFormData where
  description : String
  amount : String
  category : String
  date : String
deriving DecidableEq, Repr

/-- The FormErrors object of the source: an optional message per field. -/
structure FormErrors where
  description : Option String := none
  amount : Option String := none
  category : Option String := none
  date : Option String := none
deriving DecidableEq, Repr

/-- The four form field names used by the source inputs. -/
inductive Field where
  | description : Field
  | amount : Field
  | category : Field
  | date : Field
deriving DecidableEq, Repr

/-- Look up the error entry for a field. -/
def getError (e : FormErrors) : Field → Option String
  | Field.description => e.description
  | Field.amount => e.amount
  | Field.category => e.category
  | Field.date => e.date

/-- Set the error entry for a field to absent, as the spread with an
undefined value does in handleInputChange. -/
def clearError (e : FormErrors) : Field → FormErrors
  | Field.description => { e with description := none }
  | Field.amount => { e with amount := none }
  | Field.category => { e with category := none }
  | Field.date => { e with date := none }

/-- Read a draft field. -/
def getField (d : ExpenseFormData) : Field → String
  | Field.description => d.description
  | Field.amount => d.amount
  | Field.category => d.category
  | Field.date => d.date

/-- Write a draft field, as the computed-key spread in handleInputChange. -/
def setField (d : ExpenseFormData) : Field → String → ExpenseFormData
  | Field.description, v => { d with description := v }
  | Field.amount, v => { d with amount := v }
  | Field.category, v => { d with category := v }
  | Field.date, v => { d with date := v }

/-- Number of keys assigned in a FormErrors object, modelling
Object.keys(validationErrors).length in validateExpenseForm. -/
def FormErrors.count (e : FormErrors) : Nat :=
  (if e.description.isSome then 1 else 0) +
    (if e.amount.isSome then 1 else 0) +
    (if e.category.isSome then 1 else 0) +
    (if e.date.isSome then 1 else 0)

/-- Return type of validateExpenseForm. -/
structure ValidationResult where
  isValid : Bool
  errors : FormErrors
deriving DecidableEq, Repr

/-- The validator validateExpenseForm of the source: checks the trimmed
description for emptiness, parses the amount and rejects NaN or a
non-positive value, and checks category and date for string truthiness;
isValid holds when no error key was assigned. -/
def validateExpenseForm (data : ExpenseFormData) : ValidationResult :=
  let descriptionError : Option String :=
    if jsTrim data.description = "" then some "Description is required"
    else none
  let amount := parseFloat data.amount
  let amountError : Option String :=
    if amount.isNaN || amount.leZero then some "Amount must be a positive number"
    else none
  let categoryError : Option String :=
    if data.category = "" then some "Category is required" else none
  let dateError : Option String :=
    if data.date = "" then some "Date is required" else none
  let validationErrors : FormErrors :=
    { description := descriptionError, amount := amountError,
      category := categoryError, date := dateError }
  { isValid := validationErrors.count = 0, errors := validationErrors }

/-- JavaScript truthiness of an optional string, as tested by
if (errors[name]) in handleInputChange: absent and the empty string are
falsy. -/
def truthy : Option String → Bool
  | none => false
  | some s => decide (s ≠ "")

/-- The component state: the draft record and the error map. -/
structure ControllerState where
  formData : ExpenseFormData
  errors : FormErrors
deriving DecidableEq, Repr

/-- The field-edit handler handleInputChange of the source: writes the new
value into the named draft field, and when a truthy error entry exists for
that field, spreads the error object with that key set to undefined. -/
def handleInputChange (s : ControllerState) (f : Field) (v : String) :
    ControllerState :=
  { formData := setField s.formData f v,
    errors :=
      if truthy (getError s.errors f) then clearError s.errors f
      else s.errors }

/-- The record handed to the onSubmit sink: the draft with the description
trimmed and the amount replaced by its parsed numeric value. -/
structure SubmittedExpense where
  description : String
  amount : JsNum
  category : String
  date : String
deriving DecidableEq, Repr

/-- The initial draft of the source component; today is the value of
new Date().toISOString().split('T')[0] at the moment of evaluation. -/
def initialFormData (today : String) : ExpenseFormData :=
  { description := "", amount := "", category := "Food", date := today }

/-- The initial component state: initial draft, empty error map. -/
def initialState (today : String) : ControllerState :=
  { formData := initialFormData today, errors := {} }

/-- The submit handler handleSubmit of the source: on a failed validation
it stores the returned errors and keeps the draft; on success it clears
the errors, passes the normalized record to the sink (returned here as
some value) and resets the draft, with the date field set to the current
date today. -/
def handleSubmit (today : String) (s : ControllerState) :
    ControllerState × Option SubmittedExpense :=
  let validation := validateExpenseForm s.formData
  if !validation.isValid then
    ({ s with errors := validation.errors }, none)
  else
    ({ formData := initialFormData today, errors := {} },
      some { description := jsTrim s.formData.description,
             amount := parseFloat s.formData.amount,
             category := s.formData.category,
             date := s.formData.date })

/-- An event handled by the component: a field edit or a submit; a submit
carries the current date at the moment it happens. -/
inductive Op where
  | change (f : Field) (v : String) : Op
  | submit (today : String) : Op

/-- Apply one event to the component state. -/
def applyOp (s : ControllerState) : Op → ControllerState
  | Op.change f v => handleInputChange s f v
  | Op.submit today => (handleSubmit today s).1

/-- Run a sequence of events from a state. -/
def run (s : ControllerState) (ops : List Op) : ControllerState :=
  ops.foldl applyOp s

/-- The per-field failure condition of validateExpenseForm, read off the
four checks of the source. -/
def ruleFails (f : Field) (d : ExpenseFormData) : Bool :=
  match f with
  | Field.description => jsTrim d.description = ""
  | Field.amount => (parseFloat d.amount).isNaN || (parseFloat d.amount).leZero
  | Field.category => d.category = ""
  | Field.date => d.date = ""

/-- The message stored by validateExpenseForm when the rule of a field
fails. -/
def fieldMsg : Field → String
  | Field.description => "Description is required"
  | Field.amount => "Amount must be a positive number"
  | Field.category => "Category is required"
  | Field.date => "Date is required"

theorem count_eq_zero (e : FormErrors) :
    e.count = 0 ↔
      e.description = none ∧ e.amount = none ∧ e.category = none ∧
        e.date = none := by
  obtain ⟨d, a, c, t⟩ := e
  cases d <;> cases a <;> cases c <;> cases t <;> simp [FormErrors.count]

theorem validate_errors_spec (d : ExpenseFormData) (f : Field) :
    getError (validateExpenseForm d).errors f =
      if ruleFails f d then some (fieldMsg f) else none := by
  cases f
  case description =>
    by_cases h : jsTrim d.description = "" <;>
      simp [validateExpenseForm, getError, ruleFails, fieldMsg, h]
  case amount => rfl
  case category =>
    by_cases h : d.category = "" <;>
      simp [validateExpenseForm, getError, ruleFails, fieldMsg, h]
  case date =>
    by_cases h : d.date = "" <;>
      simp [validateExpenseForm, getError, ruleFails, fieldMsg, h]

theorem validate_isValid_iff_none (d : ExpenseFormData) :
    (validateExpenseForm d).isValid = true ↔
      ∀ f, getError (validateExpenseForm d).errors f = none := by
  have h : (validateExpenseForm d).isValid =
      decide ((validateExpenseForm d).errors.count = 0) := rfl
  rw [h, decide_eq_true_eq, count_eq_zero]
  constructor
  · rintro ⟨h1, h2, h3, h4⟩ f
    cases f <;> assumption
  · intro hall
    exact ⟨hall Field.description, hall Field.amount, hall Field.category,
      hall Field.date⟩

theorem validate_isValid_iff (d : ExpenseFormData) :
    (validateExpenseForm d).isValid = true ↔ ∀ f, ruleFails f d = false := by
  rw [validate_isValid_iff_none]
  refine forall_congr' fun f => ?_
  rw [validate_errors_spec]
  cases hrf : ruleFails f d <;> simp

theorem getField_setField_self (d : ExpenseFormData) (f : Field)
    (v : String) : getField (setField d f v) f = v := by
  cases f <;> rfl

theorem getField_setField_ne (d : ExpenseFormData) (f g : Field)
    (v : String) (h : g ≠ f) :
    getField (setField d f v) g = getField d g := by
  cases f <;> cases g <;> simp_all [getField, setField]

theorem getError_clearError_self (e : FormErrors) (f : Field) :
    getError (clearError e f) f = none := by
  cases f <;> rfl

theorem getError_clearError_ne (e : FormErrors) (f g : Field)
    (h : g ≠ f) : getError (clearError e f) g = getError e g := by
  cases f <;> cases g <;> simp_all [getError, clearError]

theorem ruleFails_setField_ne (d : ExpenseFormData) (f g : Field)
    (v : String) (h : g ≠ f) :
    ruleFails g (setField d f v) = ruleFails g d := by
  cases f <;> cases g <;> simp_all [ruleFails, setField]

theorem fieldMsg_ne_empty (f : Field) : fieldMsg f ≠ "" := by
  cases f <;> decide

theorem splitSign_no_sign (c : Char) (s : List Char) (hp : c ≠ '+')
    (hm : c ≠ '-') : splitSign (c :: s) = (false, c :: s) := by
  simp [splitSign, hp, hm]

theorem parseFloatChars_head_invalid (c : Char) (s : List Char)
    (hws : isJsWhitespace c = false) (hp : c ≠ '+') (hm : c ≠ '-')
    (hd : c.isDigit = false) (hdot : c ≠ '.') (hI : c ≠ 'I') :
    parseFloatChars (c :: s) = JsNum.nan := by
  have h1 : (c :: s).dropWhile isJsWhitespace = c :: s :=
    List.dropWhile_cons_of_neg (by simp [hws])
  have h2 : (c :: s).takeWhile Char.isDigit = [] :=
    List.takeWhile_cons_of_neg (by simp [hd])
  have h3 : (c :: s).dropWhile Char.isDigit = c :: s :=
    List.dropWhile_cons_of_neg (by simp [hd])
  simp [parseFloatChars, h1, splitSign_no_sign c s hp hm, h2, h3, hdot,
    infinityChars, hI]

theorem parseFloatChars_whitespace (cs : List Char)
    (h : ∀ c ∈ cs, isJsWhitespace c = true) :
    parseFloatChars cs = JsNum.nan := by
  have h1 : cs.dropWhile isJsWhitespace = [] :=
    List.dropWhile_eq_nil_iff.mpr h
  have h2 : splitSign ([] : List Char) = (false, []) := rfl
  simp [parseFloatChars, h1, h2, infinityChars]

theorem parseFloat_rounds_tenth :
    parseFloat "0.1" = JsNum.finite (mkRat 3602879701896397 (2 ^ 55)) := by
  decide

set_option maxRecDepth 100000 in
theorem parseFloat_underflows_to_zero :
    parseFloat "1e-324" = JsNum.finite 0 := by
  decide

set_option maxRecDepth 100000 in
theorem parseFloat_least_subnormal :
    parseFloat "5e-324" = JsNum.finite (mkRat 1 (2 ^ 1074)) := by
  decide

set_option maxRecDepth 100000 in
theorem parseFloat_overflows_to_infinity :
    parseFloat "1e309" = JsNum.inf true := by
  decide

set_option maxRecDepth 100000 in
theorem validate_rejects_underflowed_amount :
    getError (validateExpenseForm
      ⟨"x", "1e-324", "Food", "2024-01-01"⟩).errors Field.amount =
      some "Amount must be a positive number" := by
  decide

/-- Error entries are absent or hold the message of their own field. -/
def errWf (s : ControllerState) : Prop :=
  ∀ f, getError s.errors f = none ∨ getError s.errors f = some (fieldMsg f)

/-- No error entry exists for a field whose current draft value satisfies
the rule of that field. -/
def errSound (s : ControllerState) : Prop :=
  ∀ f, ruleFails f s.formData = false → getError s.errors f = none

theorem initial_errWf (today : String) : errWf (initialState today) := by
  intro f
  cases f <;> exact Or.inl rfl

theorem initial_errSound (today : String) : errSound (initialState today) := by
  intro f _
  cases f <;> rfl

theorem handleInputChange_formData (s : ControllerState) (f : Field)
    (v : String) :
    (handleInputChange s f v).formData = setField s.formData f v := rfl

theorem handleInputChange_errors_pos (s : ControllerState) (f : Field)
    (v : String) (ht : truthy (getError s.errors f) = true) :
    (handleInputChange s f v).errors = clearError s.errors f := by
  simp [handleInputChange, ht]

theorem handleInputChange_errors_neg (s : ControllerState) (f : Field)
    (v : String) (ht : truthy (getError s.errors f) = false) :
    (handleInputChange s f v).errors = s.errors := by
  simp [handleInputChange, ht]

theorem handleInputChange_errors_self (s : ControllerState) (f : Field)
    (v : String) (hwf : errWf s) :
    getError (handleInputChange s f v).errors f = none := by
  cases ht : truthy (getError s.errors f) with
  | true =>
    rw [handleInputChange_errors_pos s f v ht]
    exact getError_clearError_self s.errors f
  | false =>
    rw [handleInputChange_errors_neg s f v ht]
    rcases hwf f with h0 | h0
    · exact h0
    · rw [h0] at ht
      simp [truthy, fieldMsg_ne_empty f] at ht

theorem handleInputChange_errors_ne (s : ControllerState) (f g : Field)
    (v : String) (hgf : g ≠ f) :
    getError (handleInputChange s f v).errors g = getError s.errors g := by
  cases ht : truthy (getError s.errors f) with
  | true =>
    rw [handleInputChange_errors_pos s f v ht]
    exact getError_clearError_ne s.errors f g hgf
  | false => rw [handleInputChange_errors_neg s f v ht]

theorem handleInputChange_inv (s : ControllerState) (f : Field)
    (v : String) (hwf : errWf s) (hsnd : errSound s) :
    errWf (handleInputChange s f v) ∧ errSound (handleInputChange s f v) := by
  constructor
  · intro g
    by_cases hgf : g = f
    · subst hgf
      exact Or.inl (handleInputChange_errors_self s g v hwf)
    · rw [handleInputChange_errors_ne s f g v hgf]
      exact hwf g
  · intro g hrf
    by_cases hgf : g = f
    · subst hgf
      exact handleInputChange_errors_self s g v hwf
    · rw [handleInputChange_errors_ne s f g v hgf]
      apply hsnd g
      rw [← ruleFails_setField_ne s.formData f g v hgf]
      exact hrf

theorem handleSubmit_inv (today : String) (s : ControllerState)
    (_hwf : errWf s) (_hsnd : errSound s) :
    errWf (handleSubmit today s).1 ∧ errSound (handleSubmit today s).1 := by
  by_cases hv : (validateExpenseForm s.formData).isValid = true
  · simp only [handleSubmit, hv, Bool.not_true, if_false]
    exact ⟨fun f => by cases f <;> exact Or.inl rfl, fun f _ => by
      cases f <;> rfl⟩
  · have hv2 : (!(validateExpenseForm s.formData).isValid) = true := by
      cases h : (validateExpenseForm s.formData).isValid
      · rfl
      · exact absurd h hv
    constructor
    · intro f
      simp only [handleSubmit, hv2, if_true]
      rw [validate_errors_spec s.formData f]
      by_cases hrf : ruleFails f s.formData = true <;> simp [hrf]
    · intro f hrf
      simp only [handleSubmit, hv2, if_true] at hrf ⊢
      rw [validate_errors_spec s.formData f, hrf]
      rfl

theorem applyOp_inv (s : ControllerState) (op : Op) (hwf : errWf s)
    (hsnd : errSound s) : errWf (applyOp s op) ∧ errSound (applyOp s op) := by
  cases op with
  | change f v => exact handleInputChange_inv s f v hwf hsnd
  | submit today => exact handleSubmit_inv today s hwf hsnd

theorem run_inv (ops : List Op) (s : ControllerState) (hwf : errWf s)
    (hsnd : errSound s) : errWf (run s ops) ∧ errSound (run s ops) := by
  induction ops generalizing s with
  | nil => exact ⟨hwf, hsnd⟩
  | cons op rest ih =>
    have hstep := applyOp_inv s op hwf hsnd
    exact ih (applyOp s op) hstep.1 hstep.2

/-- C1: for every draft record, validateExpenseForm returns isValid = true
iff none of the four field rules failed, and the error map holds exactly
one entry per failed rule, keyed by that field and carrying that field
message; each entry depends only on the rule of its own field, so every
failed field appears even when an earlier field also failed. -/
theorem C1_valid_iff_no_rule_failed (d : ExpenseFormData) :
    ((validateExpenseForm d).isValid = true ↔ ∀ f, ruleFails f d = false) ∧
      ∀ f, getError (validateExpenseForm d).errors f =
        if ruleFails f d then some (fieldMsg f) else none :=
  ⟨validate_isValid_iff d, validate_errors_spec d⟩

/-- Witness for C1 at the all-failing draft of scenario B. -/
theorem C1_witness :
    getError (validateExpenseForm ⟨"", "-3", "", ""⟩).errors Field.amount =
      (if ruleFails Field.amount ⟨"", "-3", "", ""⟩ then
        some (fieldMsg Field.amount) else none) :=
  (C1_valid_iff_no_rule_failed ⟨"", "-3", "", ""⟩).2 Field.amount

/-- C2: for every draft record, the amount field carries the
InvalidAmount message iff parsing the raw amount text fails (NaN) or the
parsed value is at most zero (including negative infinity); in particular
a draft whose amount parses to a positive finite number has no amount
error. -/
theorem C2_amount_error_iff (d : ExpenseFormData) :
    (getError (validateExpenseForm d).errors Field.amount =
        some "Amount must be a positive number" ↔
      parseFloat d.amount = JsNum.nan ∨
        (∃ q : ℚ, parseFloat d.amount = JsNum.finite q ∧ q ≤ 0) ∨
        parseFloat d.amount = JsNum.inf false) ∧
      ∀ q : ℚ, parseFloat d.amount = JsNum.finite q → 0 < q →
        getError (validateExpenseForm d).errors Field.amount = none := by
  have hval := validate_errors_spec d Field.amount
  constructor
  · rw [hval]
    cases hp : parseFloat d.amount with
    | nan => simp [ruleFails, hp, JsNum.isNaN, JsNum.leZero, fieldMsg]
    | finite q =>
      by_cases hq : q ≤ 0 <;>
        simp [ruleFails, hp, JsNum.isNaN, JsNum.leZero, fieldMsg, hq]
    | inf pos =>
      cases pos <;> simp [ruleFails, hp, JsNum.isNaN, JsNum.leZero, fieldMsg]
  · intro q hp hq
    rw [hval]
    have hrf : ruleFails Field.amount d = false := by
      simp [ruleFails, hp, JsNum.isNaN, JsNum.leZero, not_le.mpr hq]
    rw [hrf]
    rfl

/-- Witness for C2: the amount 4.50 parses to the positive rational 9/2,
so the draft has no amount error. -/
theorem C2_witness :
    getError (validateExpenseForm
      ⟨"Coffee", "4.50", "Food", "2024-01-15"⟩).errors Field.amount = none :=
  (C2_amount_error_iff ⟨"Coffee", "4.50", "Food", "2024-01-15"⟩).2
    (mkRat 9 2) (by decide) (by decide)

/-- Counterexample to C3: the draft with the non-empty, non-enumerated
category Snacks passes validation with no category error, because the
source only tests the category for emptiness. -/
theorem C3_counterexample :
    getError (validateExpenseForm
        ⟨"Bus", "5", "Snacks", "2024-02-01"⟩).errors Field.category = none ∧
      (validateExpenseForm ⟨"Bus", "5", "Snacks", "2024-02-01"⟩).isValid =
        true := by
  decide

/-- C3 amended: validateExpenseForm reports the category Required error
iff the category is the empty string; membership in the enumerated
category set is not checked. -/
theorem C3_amended_category_error_iff_empty (d : ExpenseFormData) :
    getError (validateExpenseForm d).errors Field.category =
      if d.category = "" then some "Category is required" else none := by
  rw [validate_errors_spec d Field.category]
  by_cases h : d.category = "" <;> simp [ruleFails, fieldMsg, h]

/-- Counterexample to C4: the amount text 12,000 contains a grouping
separator yet is accepted, because parseFloat reads the leading 12 and
stops at the comma. -/
theorem C4_counterexample :
    getError (validateExpenseForm
        ⟨"Lunch", "12,000", "Food", "2024-01-15"⟩).errors Field.amount =
        none ∧
      (validateExpenseForm ⟨"Lunch", "12,000", "Food", "2024-01-15"⟩).isValid
        = true := by
  decide

/-- C4 amended: an amount text that starts with a currency symbol is
rejected with the InvalidAmount message, since parsing fails on it; but an
amount text with a grouping separator after leading digits is not
rejected: the parse stops at the separator, so 12,000 parses as 12. -/
theorem C4_amended_currency_symbol_rejected :
    (∀ (d : ExpenseFormData) (s : List Char), d.amount.data = '$' :: s →
      getError (validateExpenseForm d).errors Field.amount =
        some "Amount must be a positive number") ∧
      parseFloat "12,000" = JsNum.finite 12 := by
  constructor
  · intro d s hs
    have hp : parseFloat d.amount = JsNum.nan := by
      rw [parseFloat, hs]
      exact parseFloatChars_head_invalid '$' s (by decide) (by decide)
        (by decide) (by decide) (by decide) (by decide)
    rw [validate_errors_spec d Field.amount]
    have hrf : ruleFails Field.amount d = true := by
      simp [ruleFails, hp, JsNum.isNaN]
    simp [hrf, fieldMsg]
  · decide

/-- Witness for the amended C4 at the amount text $5. -/
theorem C4_amended_witness :
    getError (validateExpenseForm
      ⟨"Gift", "$5", "Food", "2024-01-15"⟩).errors Field.amount =
      some "Amount must be a positive number" :=
  C4_amended_currency_symbol_rejected.1
    ⟨"Gift", "$5", "Food", "2024-01-15"⟩ ['5'] (by decide)

/-- C5: when the draft passes validation, handleSubmit clears the error
map, hands the sink exactly one record with the description trimmed, the
amount replaced by its parsed numeric value and category and date passed
through, and resets the draft to the initial state with the current
date. -/
theorem C5_submit_valid (today : String) (s : ControllerState)
    (h : (validateExpenseForm s.formData).isValid = true) :
    handleSubmit today s =
      ({ formData := initialFormData today, errors := {} },
        some { description := jsTrim s.formData.description,
               amount := parseFloat s.formData.amount,
               category := s.formData.category,
               date := s.formData.date }) := by
  simp [handleSubmit, h]

/-- Witness for C5: end-to-end scenario A of the spec. -/
theorem C5_witness :
    handleSubmit "2024-06-01"
        ⟨⟨" Coffee ", "4.50", "Food", "2024-01-15"⟩, {}⟩ =
      ({ formData := ⟨"", "", "Food", "2024-06-01"⟩, errors := {} },
        some ⟨"Coffee", JsNum.finite (mkRat 9 2), "Food", "2024-01-15"⟩) :=
  (C5_submit_valid "2024-06-01"
      ⟨⟨" Coffee ", "4.50", "Food", "2024-01-15"⟩, {}⟩ (by decide)).trans
    (by decide)

/-- C6: when the draft fails validation, handleSubmit replaces the error
map wholesale with the errors the validator returned, keeps every draft
field unchanged and does not call the sink. -/
theorem C6_submit_invalid (today : String) (s : ControllerState)
    (h : (validateExpenseForm s.formData).isValid = false) :
    handleSubmit today s =
      ({ formData := s.formData,
         errors := (validateExpenseForm s.formData).errors }, none) := by
  obtain ⟨fd, er⟩ := s
  simp [handleSubmit, h]

/-- Witness for C6: end-to-end scenario B of the spec. -/
theorem C6_witness :
    handleSubmit "2024-06-01" ⟨⟨"", "-3", "", ""⟩, {}⟩ =
      ({ formData := ⟨"", "-3", "", ""⟩,
         errors := ⟨some "Description is required",
                    some "Amount must be a positive number",
                    some "Category is required", some "Date is required"⟩ },
        none) :=
  (C6_submit_invalid "2024-06-01" ⟨⟨"", "-3", "", ""⟩, {}⟩
    (by decide)).trans (by decide)

/-- C7: handleInputChange writes the new value into the named field,
leaves the error entry of that field absent afterwards (assuming the
entry was not the untypical empty-string message, which the component
never stores), and leaves every other draft field and error entry
unchanged. -/
theorem C7_field_change (s : ControllerState) (f : Field) (v : String)
    (h : getError s.errors f ≠ some "") :
    getField (handleInputChange s f v).formData f = v ∧
      (∀ g, g ≠ f → getField (handleInputChange s f v).formData g =
        getField s.formData g) ∧
      getError (handleInputChange s f v).errors f = none ∧
      ∀ g, g ≠ f → getError (handleInputChange s f v).errors g =
        getError s.errors g := by
  refine ⟨?_, ?_, ?_, ?_⟩
  · rw [handleInputChange_formData]
    exact getField_setField_self s.formData f v
  · intro g hg
    rw [handleInputChange_formData]
    exact getField_setField_ne s.formData f g v hg
  · cases ht : truthy (getError s.errors f) with
    | true =>
      rw [handleInputChange_errors_pos s f v ht]
      exact getError_clearError_self s.errors f
    | false =>
      rw [handleInputChange_errors_neg s f v ht]
      cases h0 : getError s.errors f with
      | none => rfl
      | some m =>
        rw [h0] at ht
        have hm : m = "" := by simpa [truthy] using ht
        subst hm
        exact absurd h0 h
  · intro g hg
    exact handleInputChange_errors_ne s f g v hg

/-- Witness for C7: the edit-clears-error scenario of the spec. -/
theorem C7_witness :
    getError (handleInputChange
      ⟨⟨"a", "", "Food", "2024-01-01"⟩,
        { amount := some "Amount must be a positive number" }⟩
      Field.amount "12.50").errors Field.amount = none :=
  (C7_field_change
    ⟨⟨"a", "", "Food", "2024-01-01"⟩,
      { amount := some "Amount must be a positive number" }⟩
    Field.amount "12.50" (by decide)).2.2.1

/-- C8: in every state reachable from the initial state by field edits
and submits, the error map has no entry for a field whose current draft
value satisfies the rule of that field. -/
theorem C8_no_stale_error (today : String) (ops : List Op) (f : Field)
    (h : ruleFails f (run (initialState today) ops).formData = false) :
    getError (run (initialState today) ops).errors f = none :=
  (run_inv ops (initialState today) (initial_errWf today)
    (initial_errSound today)).2 f h

/-- Witness for C8: after editing the description and submitting (the
submit fails on the empty amount), the description satisfies its rule and
carries no error entry. -/
theorem C8_witness :
    getError (run (initialState "2024-01-01")
      [Op.change Field.description "x",
        Op.submit "2024-01-02"]).errors Field.description = none :=
  C8_no_stale_error "2024-01-01"
    [Op.change Field.description "x", Op.submit "2024-01-02"]
    Field.description (by decide)

/-- C9: validateExpenseForm is a pure function of the draft record alone:
two calls on the same draft yield identical results, and the draft is not
modified (the embedding is purely functional, so the input record is
untouched by construction). -/
theorem C9_validate_deterministic (d1 d2 : ExpenseFormData) (h : d1 = d2) :
    validateExpenseForm d1 = validateExpenseForm d2 :=
  congrArg validateExpenseForm h

/-- Witness for C9 at a concrete draft. -/
theorem C9_witness :
    validateExpenseForm ⟨"Tea", "2.00", "Food", "2024-03-01"⟩ =
      validateExpenseForm ⟨"Tea", "2.00", "Food", "2024-03-01"⟩ :=
  C9_validate_deterministic ⟨"Tea", "2.00", "Food", "2024-03-01"⟩
    ⟨"Tea", "2.00", "Food", "2024-03-01"⟩ rfl

/-- C10: a draft whose amount text is empty or all whitespace gets the
InvalidAmount message (the must-be-a-positive-number message) on the
amount field, never a missing-field Required message, and the draft is
invalid. -/
theorem C10_blank_amount_invalid (d : ExpenseFormData)
    (h : ∀ c ∈ d.amount.data, isJsWhitespace c = true) :
    getError (validateExpenseForm d).errors Field.amount =
        some "Amount must be a positive number" ∧
      (validateExpenseForm d).isValid = false := by
  have hp : parseFloat d.amount = JsNum.nan :=
    parseFloatChars_whitespace d.amount.data h
  have hrf : ruleFails Field.amount d = true := by
    simp [ruleFails, hp, JsNum.isNaN]
  constructor
  · rw [validate_errors_spec d Field.amount]
    simp [hrf, fieldMsg]
  · cases hv : (validateExpenseForm d).isValid
    · rfl
    · have := (validate_isValid_iff d).mp hv Field.amount
      rw [hrf] at this
      exact absurd this (by decide)

/-- Witness for C10 at the all-whitespace amount text. -/
theorem C10_witness :
    getError (validateExpenseForm
      ⟨"Tea", "   ", "Food", "2024-03-01"⟩).errors Field.amount =
      some "Amount must be a positive number" :=
  (C10_blank_amount_invalid ⟨"Tea", "   ", "Food", "2024-03-01"⟩
    (by decide)).1

end ExpenseTracker
